import Mathlib

/-!
Shallow embedding of the MUFF v2.0 microscope positioner core
(`muff_capture/muff_mainloop.py` and `muff_capture/muff_arduino.py`).

Conventions of the embedding:
* Python floats are modelled as rationals (`ℚ`); all values that actually
  occur are small decimals, where rational arithmetic agrees with binary
  floating point.
* Side effects (serial commands to the Arduino, capture requests to the
  frame grabber, `sys.exit`) are modelled as an explicit trace of `Event`s.
* Fallible code is modelled in `Except PyErr`: an uncaught Python
  exception (`NameError`, `AssertionError`, `TypeError`) or a `sys.exit`
  ends the process, and is represented by the `.error` case.
* The serial input is modelled as the list of chunks successively returned
  by `sport.read()`; in normal operation every chunk is a single byte.
-/

namespace Muff

/-- Ways the Python process can die: an undefined-name reference, a failed
`assert`, a `TypeError` (e.g. `None + float`), an explicit `sys.exit`, or
blocking forever on a read that never yields data. -/
inductive PyErr where
  | nameError (n : String)
  | assertFailed
  | typeErr
  | sysExit (code : Nat)
  | blocked
  deriving DecidableEq, Repr

/-- Observable actions of the process: commands sent to the Arduino,
capture requests/replies exchanged with the frame grabber, and process
exit. -/
inductive Event where
  | startMotor (dir : Int) (fast : Bool)
  | stopMotor
  | sendSetZ (payload : String)
  | moveMicroscope
  | switchLED (lix : Nat) (pwr : ℚ)
  | switchAllLEDs (pwr : ℚ)
  | captureRequest (fname : String)
  | captureReply (ok : Bool)
  | exitProcess (code : Nat)
  deriving DecidableEq, Repr

/-- Decidable equality of results (core provides none for `Except`). -/
instance {ε α : Type _} [DecidableEq ε] [DecidableEq α] :
    DecidableEq (Except ε α) := fun x y =>
  match x, y with
  | .ok a, .ok b =>
    if h : a = b then isTrue (h ▸ rfl) else isFalse (fun he => h (Except.ok.inj he))
  | .ok _, .error _ => isFalse (fun he => Except.noConfusion he)
  | .error _, .ok _ => isFalse (fun he => Except.noConfusion he)
  | .error e, .error f =>
    if h : e = f then isTrue (h ▸ rfl) else isFalse (fun he => h (Except.error.inj he))

def num_LEDs : Nat := 24

/-! ## DeviceLink: `muff_arduino.py` low-level read path

`readchar` reads one chunk from the serial port.  In the source, a chunk
whose length is not 1 takes the error branch, whose diagnostic line calls
the undefined name `show_chrs` — so the process dies with a `NameError`
(it never returns a byte and never retries). -/

/-- `muff_arduino.readchar`: one `sport.read()` call per step.  A chunk of
length 1 is returned; any other length evaluates `show_chrs` (undefined
name) and the process dies. An exhausted stream means `sport.read()`
blocks forever. -/
def readchar : List (List Char) → Except PyErr (Char × List (List Char))
  | [] => .error .blocked
  | c :: rest =>
    match c with
    | [ch] => .ok (ch, rest)
    | _ => .error (.nameError "show_chrs")

/-- `muff_arduino.skip_to_eol`: read characters (via `readchar`) until the
first CR or NL, inclusive. -/
def skipToEol : List (List Char) → Except PyErr (List (List Char))
  | [] => .error .blocked
  | c :: rest =>
    match c with
    | [ch] => if ch = '\r' ∨ ch = '\n' then .ok rest else skipToEol rest
    | _ => .error (.nameError "show_chrs")

/-- `muff_arduino.read_signif`, with the source's inner call to
`skip_to_eol` inlined as an `inComment` flag (true while discarding a
`#`-comment): skips spaces, CRs and LFs, discards comments through and
including the end of line, and returns the first other byte.  Each step
consumes one chunk exactly as one `readchar` call does. -/
def readSignifAux : Bool → List (List Char) → Except PyErr (Char × List (List Char))
  | _, [] => .error .blocked
  | inComment, c :: rest =>
    match c with
    | [ch] =>
      if inComment then
        if ch = '\r' ∨ ch = '\n' then readSignifAux false rest
        else readSignifAux true rest
      else if ch = '#' then readSignifAux true rest
      else if ch = ' ' ∨ ch = '\r' ∨ ch = '\n' then readSignifAux false rest
      else .ok (ch, rest)
    | _ => .error (.nameError "show_chrs")

/-- `muff_arduino.read_signif` on a fresh (non-comment) stream. -/
def readSignif (chunks : List (List Char)) : Except PyErr (Char × List (List Char)) :=
  readSignifAux false chunks

/-- `muff_arduino.wait_arduino_OK`: resolve one significant byte; `'0'`
is success, any other byte is `sys.exit(1)`. -/
def waitArduinoOK (chunks : List (List Char)) : Except PyErr (List (List Char)) :=
  match readSignif chunks with
  | .error e => .error e
  | .ok (ch, rest) => if ch = '0' then .ok rest else .error (.sysExit 1)

/-- A byte stream in which every `sport.read()` returns exactly one byte. -/
def strToChunks (s : String) : List (List Char) :=
  s.data.map (fun ch => [ch])

/-! ## Executable rational arithmetic

The Batteries `Rat.add`/`Rat.mul` are `@[irreducible]`, so kernel-level
evaluation (`decide`, `rfl`) cannot use them.  The embedding therefore
uses `mkRat`-based equivalents; `ratAdd_eq_add` and `ratMul_eq_mul`
below prove they are exactly addition and multiplication on `ℚ`. -/

/-- Exact rational addition, kernel-computable. -/
def ratAdd (a b : ℚ) : ℚ :=
  mkRat (a.num * b.den + b.num * a.den) (a.den * b.den)

/-- Exact rational multiplication, kernel-computable. -/
def ratMul (a b : ℚ) : ℚ :=
  mkRat (a.num * b.num) (a.den * b.den)

/-! ## DeviceController: `muff_arduino.set_Z_step` -/

/-- Python 3 `round()` on a rational: round half to even.  A reduced
rational has fractional part `1/2` exactly when its denominator is 2; on
a tie round to the even neighbour, otherwise `round q = ⌊q + 1/2⌋`
(stated with the executable `Rat.floor q = ⌊q⌋`). -/
def pyRound (q : ℚ) : ℤ :=
  if q.den = 2 then
    (if 2 ∣ Rat.floor q then Rat.floor q else Rat.floor q + 1)
  else Rat.floor (ratAdd q (mkRat 1 2))

/-- Zero-pad a digit string on the left to width `w` (Python `%0Nd` on the
magnitude part). -/
def zeroPadTo (w : Nat) (s : String) : String :=
  String.mk (List.replicate (w - s.length) '0') ++ s

/-- Python `"%+03d" % i`: a sign character followed by the decimal
magnitude zero-padded to total field width 3 — i.e. the magnitude is
padded to 2 digits, not 3. -/
def formatPlus03 (i : ℤ) : String :=
  (if i < 0 then "-" else "+") ++ zeroPadTo 2 (Nat.repr i.natAbs)

/-- What the spec's words describe instead: the command byte `'4'`, the
sign, and the 3-digit zero-padded magnitude. -/
def specStepPayload (i : ℤ) : String :=
  "4" ++ (if i < 0 then "-" else "+") ++ zeroPadTo 3 (Nat.repr i.natAbs)

/-- `muff_arduino.set_Z_step`: convert millimeters to integer microns by
`int(round(Z_step*1000))`, assert the result is within `[-999, 999]`, and
build the command `"4%+03d" % istep`.  Returns the payload it would send. -/
def set_Z_step (Z_step : ℚ) : Except PyErr String :=
  let istep := pyRound (ratMul Z_step 1000)
  if -999 ≤ istep ∧ istep ≤ 999 then .ok ("4" ++ formatPlus03 istep)
  else .error .assertFailed

/-! ## LightPatternPlanner: `muff_mainloop.define_LED_vals` -/

/-- `muff_mainloop.define_LED_centric_pattern`: six LEDs centered on
top-tier LED `Lm` (asserted in `0..11`). -/
def define_LED_centric_pattern (vals : List ℚ) (Lm : Nat) : Except PyErr (List ℚ) :=
  if Lm < 12 then
    .ok ((((((vals.set Lm 1).set ((Lm + 1) % 12) 1).set ((Lm + 11) % 12) 1).set
      (Lm + 12) 1).set ((Lm + 4) % 12) 1).set ((Lm + 8) % 12) 1)
  else .error .assertFailed

/-- `muff_mainloop.define_LED_bridging_pattern`: six LEDs centered between
top-tier LED `La` (asserted in `0..11`) and its clockwise neighbour. -/
def define_LED_bridging_pattern (vals : List ℚ) (La : Nat) : Except PyErr (List ℚ) :=
  if La < 12 then
    let Lb := (La + 1) % 12
    .ok ((((((vals.set La 1).set Lb 1).set (La + 12) 1).set (Lb + 12) 1).set
      ((Lb + 4) % 12) 1).set ((La + 8) % 12) 1)
  else .error .assertFailed

/-- `muff_mainloop.define_LED_vals`: the illumination vector for lighting
condition `L` out of `nL`.  The source's bottom-tier branch
(`nL` in 13..23 and `L ≥ 12`) assigns to the undefined name `val`, so it
raises a `NameError` instead of returning a vector. -/
def define_LED_vals (L nL : Nat) : Except PyErr (List ℚ) :=
  if ¬(0 < nL ∧ nL ≤ num_LEDs) then .error .assertFailed
  else if ¬(L < nL) then .error .assertFailed
  else
    let vals : List ℚ := List.replicate num_LEDs 0
    if 12 < nL then
      if L < 12 ∨ nL = 24 then .ok (vals.set L 1)
      else .error (.nameError "val")
    else if nL = 12 then .ok ((vals.set L 1).set (L + 12) 1)
    else if nL = 6 then define_LED_centric_pattern vals (2 * L)
    else
      let S := (L * 24 + 12) / nL
      if ¬(S < 23) then .error .assertFailed
      else if S % 2 = 0 then define_LED_centric_pattern vals (S / 2)
      else define_LED_bridging_pattern vals ((S - 1) / 2)

/-- The LED count the spec assigns to each branch of the planner:
1 for `nL > 12`, 2 for `nL = 12`, 6 for `nL = 6` and for `nL < 12`. -/
def branchLEDCount (nL : Nat) : Nat :=
  if 12 < nL then 1 else if nL = 12 then 2 else 6

/-! ## DeviceController state: `muff_mainloop.set_light_condition`

The global `LED_status` starts as `[None]*24`, so a cache entry is an
`Option ℚ` (`none` = Python `None`).  `pwr != LED_status[lix]` compares a
float against the cache entry; `None != 0.0` is true in Python, matching
`some pwr ≠ none`. -/

/-- The body of `set_light_condition`'s `for lix in range(num_LEDs)` loop,
starting at index `lix` with `n` iterations left: assert the desired
intensity is 0.0 or 1.0, and emit a `switch_LED` command exactly when it
differs from the cached status. -/
def slcAux (vals : List ℚ) : Nat → Nat → List (Option ℚ) →
    Except PyErr (List Event × List (Option ℚ))
  | _, 0, st => .ok ([], st)
  | lix, n + 1, st =>
    if vals.getD lix 0 = 0 ∨ vals.getD lix 0 = 1 then
      if some (vals.getD lix 0) ≠ st.getD lix none then
        match slcAux vals (lix + 1) n (st.set lix (some (vals.getD lix 0))) with
        | .ok (evs, st2) => .ok (.switchLED lix (vals.getD lix 0) :: evs, st2)
        | .error e => .error e
      else slcAux vals (lix + 1) n st
    else .error .assertFailed

/-- `muff_mainloop.set_light_condition`: assert the vector has 24 entries,
then walk all LED indices emitting only delta commands and updating the
cache. -/
def setLightCondition (st : List (Option ℚ)) (vals : List ℚ) :
    Except PyErr (List Event × List (Option ℚ)) :=
  if vals.length = num_LEDs then slcAux vals 0 num_LEDs st
  else .error .assertFailed

/-- `muff_mainloop.switch_all_lights_off`: one broadcast command, cache
reset to all-0.0. -/
def switchAllLightsOff : List Event × List (Option ℚ) :=
  ([.switchAllLEDs 0], List.replicate num_LEDs (some 0))

/-! ## Filenames: `make_subdir_name` / `make_frame_filename` -/

/-- Python `"%02d" % n` for `n ≥ 0`. -/
def fmt2 (n : Nat) : String := zeroPadTo 2 (Nat.repr n)

/-- Python `"%05d" % n` for `n ≥ 0`. -/
def fmt5 (n : Nat) : String := zeroPadTo 5 (Nat.repr n)

/-- `muff_mainloop.make_subdir_name`. -/
def makeSubdirName (topdir : String) (L V : Nat) : String :=
  topdir ++ ("/L_" ++ fmt2 L ++ "/V_" ++ fmt2 V ++ "/raw")

/-- `muff_mainloop.make_frame_filename`. -/
def makeFrameFilename (topdir : String) (L V H : Nat) : String :=
  makeSubdirName topdir L V ++ ("/frame_" ++ fmt5 H ++ ".jpg")

/-! ## Manual positioning: `place_camera_for_first_image` -/

/-- Python `str.strip()` on the command lines: drop leading and trailing
whitespace (the inputs here are ASCII command words with an end-of-line).
Implemented over the character list so the kernel can evaluate it
(`String.trim` is position-based and does not reduce). -/
def pyStrip (s : String) : String :=
  String.mk (((s.data.dropWhile Char.isWhitespace).reverse.dropWhile
    Char.isWhitespace).reverse)

/-- Python `str.lower()` on the command words (ASCII range, which covers
every command compared against). -/
def pyLower (s : String) : String :=
  String.mk (s.data.map Char.toLower)

/-- The `while True` command loop of `place_camera_for_first_image`.
Input is the list of lines `stdin.readline` will yield (each would carry
its end-of-line); an exhausted list — or an element `""` — is end-of-file.
Returns (events, the value assigned to the global `Z_curr` if any, and
the function's boolean result).  `start_motor` always issues a stop
command before the start command, as in `muff_arduino.start_motor`; the
source's blank-line branch and its complain-and-reprompt branch both just
continue the loop. -/
def placeCameraLoop : List String → List Event × Option ℚ × Bool
  | [] => ([.stopMotor], none, false)
  | line :: rest =>
    if line = "" then ([.stopMotor], none, false)
    else if pyLower (pyStrip line) = "ok" then ([.stopMotor], some 0, true)
    else if pyLower (pyStrip line) = "abort" ∨ pyLower (pyStrip line) = "q" then
      ([.stopMotor], none, false)
    else if pyStrip line = "u" then
      (.stopMotor :: .startMotor 1 false :: (placeCameraLoop rest).1,
        (placeCameraLoop rest).2)
    else if pyStrip line = "d" then
      (.stopMotor :: .startMotor (-1) false :: (placeCameraLoop rest).1,
        (placeCameraLoop rest).2)
    else if pyStrip line = "U" then
      (.stopMotor :: .startMotor 1 true :: (placeCameraLoop rest).1,
        (placeCameraLoop rest).2)
    else if pyStrip line = "D" then
      (.stopMotor :: .startMotor (-1) true :: (placeCameraLoop rest).1,
        (placeCameraLoop rest).2)
    else if pyLower (pyStrip line) = "s" then
      (.stopMotor :: (placeCameraLoop rest).1, (placeCameraLoop rest).2)
    else placeCameraLoop rest

/-- `muff_mainloop.place_camera_for_first_image`: light four top-tier LEDs
(indices 0, 3, 6, 9) through `set_light_condition`, then run the command
loop.  (The source's final `switch_all_lights_off` on line 240 is dead
code after `while True` and is therefore not part of the model.) -/
def placeCameraForFirstImage (st : List (Option ℚ)) (input : List String) :
    Except PyErr (List Event × List (Option ℚ) × Option ℚ × Bool) := do
  let Lval := ((((List.replicate num_LEDs (0 : ℚ)).set 0 1).set 3 1).set 6 1).set 9 1
  let (ev1, st1) ← setLightCondition st Lval
  let (ev2, z, ok) := placeCameraLoop input
  return (ev1 ++ ev2, st1, z, ok)

/-! ## Sequencing: `capture_image_set`

`caps k` is the outcome of the `k`-th capture request (the reply the
frame grabber sends for it); `capture_frame` returns that outcome.  The
presumed position `Z_curr` is `Option ℚ` because the global starts as
`None`; `Z_curr + Z_step` on `None` would be a Python `TypeError`. -/

/-- `Z_curr = Z_curr + Z_step` on the presumed position. -/
def optAdd (z : Option ℚ) (d : ℚ) : Except PyErr (Option ℚ) :=
  match z with
  | none => .error .typeErr
  | some a => .ok (some (ratAdd a d))

/-- The `for L in range(nL)` loop of `capture_image_set`: set the lights,
request a capture, await the reply, force all lights off, and abort the
whole sequence if the capture failed.  `k` is the running capture-request
index, `n` the number of iterations left. -/
def lightLoop (caps : Nat → Bool) (topdir : String) (nL V H : Nat) :
    Nat → Nat → Nat → List (Option ℚ) →
    Except PyErr (List Event × List (Option ℚ) × Nat × Bool)
  | k, _, 0, st => .ok ([], st, k, true)
  | k, L, n + 1, st => do
    let vals ← define_LED_vals L nL
    let (ev1, st1) ← setLightCondition st vals
    let fname := makeFrameFilename topdir L V H
    let ok := caps k
    let (ev2, st2) := switchAllLightsOff
    let _ := st1
    if ok then do
      let (ev3, st3, k3, res) ← lightLoop caps topdir nL V H (k + 1) (L + 1) n st2
      return (ev1 ++ [.captureRequest fname, .captureReply true] ++ ev2 ++ ev3, st3, k3, res)
    else
      return (ev1 ++ [.captureRequest fname, .captureReply false] ++ ev2, st2, k + 1, false)

/-- The `for V in range(nV)` loop of `capture_image_set`.  When `nV > 1`
the source calls `set_view_direction`, whose `assert nV == 1` would then
fail. -/
def viewLoop (caps : Nat → Bool) (topdir : String) (nL nV H : Nat) :
    Nat → Nat → Nat → List (Option ℚ) →
    Except PyErr (List Event × List (Option ℚ) × Nat × Bool)
  | k, _, 0, st => .ok ([], st, k, true)
  | k, V, n + 1, st =>
    if 1 < nV then .error .assertFailed
    else do
      let (ev1, st1, k1, res) ← lightLoop caps topdir nL V H k 0 nL st
      if res then do
        let (ev2, st2, k2, res2) ← viewLoop caps topdir nL nV H k1 (V + 1) n st1
        return (ev1 ++ ev2, st2, k2, res2)
      else return (ev1, st1, k1, false)

/-- The `for H in range(nH)` loop of `capture_image_set`: from the second
height on, move the microscope one step and advance the presumed
position. -/
def heightLoop (caps : Nat → Bool) (topdir : String) (nL nV : Nat) (zStep : ℚ) :
    Nat → Option ℚ → Nat → Nat → List (Option ℚ) →
    Except PyErr (List Event × Option ℚ × List (Option ℚ) × Nat × Bool)
  | k, z, _, 0, st => .ok ([], z, st, k, true)
  | k, z, H, n + 1, st => do
    let (evMove, z1) ←
      if 0 < H then do
        let z' ← optAdd z zStep
        pure (([Event.moveMicroscope] : List Event), z')
      else pure (([] : List Event), z)
    let (ev1, st1, k1, res) ← viewLoop caps topdir nL nV H k 0 nV st
    if res then do
      let (ev2, z2, st2, k2, res2) ← heightLoop caps topdir nL nV zStep k1 z1 (H + 1) n st1
      return (evMove ++ ev1 ++ ev2, z2, st2, k2, res2)
    else return (evMove ++ ev1, z1, st1, k1, false)

/-- `muff_mainloop.capture_image_set`: parameter assertions, then the
triple-nested height/view/light loop.  Returns the event trace, the final
presumed position, the final LED cache, and the success flag. -/
def captureImageSet (caps : Nat → Bool) (topdir : String) (nL nV nH : Nat)
    (zStep : ℚ) (z0 : Option ℚ) (st0 : List (Option ℚ)) :
    Except PyErr (List Event × Option ℚ × List (Option ℚ) × Bool) :=
  if (0 < nL ∧ nL ≤ num_LEDs) ∧ (0 < nV ∧ nV ≤ 1) ∧ (0 < nH ∧ nH ≤ 99) ∧
      (mkRat (-999) 1000 ≤ zStep ∧ zStep ≤ mkRat 999 1000) ∧
      ratMul (mkRat nH 1) zStep ≤ mkRat 1000001 10000 then
    match heightLoop caps topdir nL nV zStep 0 z0 0 nH st0 with
    | .ok (evs, z, st, _, res) => .ok (evs, z, st, res)
    | .error e => .error e
  else .error .assertFailed

/-! ## `test_lighting_conditions` and `main` -/

/-- The `for L in range(nL)` loop of `test_lighting_conditions`: show each
lighting condition, then all lights off. -/
def tlcLoop (nL : Nat) : Nat → Nat → List (Option ℚ) →
    Except PyErr (List Event × List (Option ℚ))
  | _, 0, st => .ok ([], st)
  | L, n + 1, st => do
    let vals ← define_LED_vals L nL
    let (ev1, st1) ← setLightCondition st vals
    let (ev2, st2) := switchAllLightsOff
    let _ := st1
    let (ev3, st3) ← tlcLoop nL (L + 1) n st2
    return (ev1 ++ ev2 ++ ev3, st3)

/-- `muff_mainloop.test_lighting_conditions`: flash all LEDs on and off
(`test_lights`), record the cache as all-0.0, then flash every lighting
condition that will be used. -/
def testLightingConditions (nL : Nat) : Except PyErr (List Event × List (Option ℚ)) := do
  let st0 : List (Option ℚ) := List.replicate num_LEDs (some 0)
  let (evs, st) ← tlcLoop nL 0 nL st0
  return ([.switchAllLEDs 1, .switchAllLEDs 0] ++ evs, st)

/-- `muff_mainloop.terminate_process`: stop the motor, force all LEDs
off, and exit with status 0 if `ok` else 1. -/
def terminateProcess (ok : Bool) : List Event :=
  [.stopMotor, .switchAllLEDs 0, .exitProcess (if ok then 0 else 1)]

/-- `muff_mainloop.main` after successful argument parsing: test the
lighting conditions, send the Z-step definition, run the manual
positioning dialogue, capture the image set, and terminate.  The result
is the full event trace and the exit status; `.error` is an uncaught
Python exception (process dies without the cleanup). -/
def mainRun (caps : Nat → Bool) (topdir : String) (nL nV nH : Nat)
    (zStep : ℚ) (input : List String) : Except PyErr (List Event × Nat) :=
  match testLightingConditions nL with
  | .error e => .error e
  | .ok (ev1, st1) =>
    match set_Z_step zStep with
    | .error e => .error e
    | .ok pay =>
      match placeCameraForFirstImage st1 input with
      | .error e => .error e
      | .ok (ev2, st2, zOpt, ok1) =>
        if ok1 then
          match captureImageSet caps topdir nL nV nH zStep zOpt st2 with
          | .error e => .error e
          | .ok (ev3, _, _, ok2) =>
            .ok (ev1 ++ .sendSetZ pay :: ev2 ++ ev3 ++ terminateProcess ok2,
              if ok2 then 0 else 1)
        else
          .ok (ev1 ++ .sendSetZ pay :: ev2 ++ terminateProcess false, 1)

/-! ## Trace observations -/

/-- Is this event a capture request? -/
def isCaptureRequest : Event → Bool
  | .captureRequest _ => true
  | _ => false

/-- Is this event a step-once (`move_microscope`) command? -/
def isMoveMicroscope : Event → Bool
  | .moveMicroscope => true
  | _ => false

/-- Is this event a successful capture reply? -/
def isGoodReply : Event → Bool
  | .captureReply ok => ok
  | _ => false

/-- Is this event the process exit? -/
def isExitEvent : Event → Bool
  | .exitProcess _ => true
  | _ => false

/-- The destination path of a capture request, if any. -/
def capturePath : Event → Option String
  | .captureRequest f => some f
  | _ => none

/-- The mandatory-cleanup property of one `main` outcome: if the process
exits (rather than dying on an exception), the trace ends with a
stop-motor command, an all-lights-off command, and the exit itself, whose
status is 0 or 1. -/
def endsWithCleanup : Except PyErr (List Event × Nat) → Prop
  | .error _ => True
  | .ok (tr, code) =>
    (∃ pre, tr = pre ++ [.stopMotor, .switchAllLEDs 0, .exitProcess code]) ∧
      (code = 0 ∨ code = 1)

/-- Did the planner return a 24-entry vector with all entries in
`{0.0, 1.0}` and exactly `k` entries equal to 1.0? -/
def goodVec (r : Except PyErr (List ℚ)) (k : Nat) : Bool :=
  match r with
  | .ok v => v.length == 24 && v.all (fun x => x == 0 || x == 1) && v.count 1 == k
  | .error _ => false

/-- Did the planner run to completion (no assertion failure, no
`NameError`)? -/
def plannerOk (r : Except PyErr (List ℚ)) : Bool :=
  match r with
  | .ok _ => true
  | .error _ => false

/-- The LED cache at the start of `capture_image_set` in a real session:
`test_lighting_conditions` left everything at 0.0 and
`place_camera_for_first_image` turned LEDs 0, 3, 6 and 9 on (the source
never turns them off again before sequencing — its `switch_all_lights_off`
call on line 240 is dead code). -/
def sessionInitialLEDs : List (Option ℚ) :=
  ((((List.replicate num_LEDs (some (0 : ℚ))).set 0 (some 1)).set 3 (some 1)).set
    6 (some 1)).set 9 (some 1)

/-- The event trace of `capture_image_set` for the session
`nL = 1, nV = 1, nH = 2, Z_step = 0.1` with every capture succeeding,
starting from `sessionInitialLEDs`.  Condition `L = 0` of `nL = 1` is the
centric pattern at top-tier LED 6 (LEDs 2, 5, 6, 7, 10 and 18). -/
def c2Trace (topdir : String) : List Event :=
  [.switchLED 0 0, .switchLED 2 1, .switchLED 3 0, .switchLED 5 1,
   .switchLED 7 1, .switchLED 9 0, .switchLED 10 1, .switchLED 18 1,
   .captureRequest (makeFrameFilename topdir 0 0 0), .captureReply true,
   .switchAllLEDs 0,
   .moveMicroscope,
   .switchLED 2 1, .switchLED 5 1, .switchLED 6 1, .switchLED 7 1,
   .switchLED 10 1, .switchLED 18 1,
   .captureRequest (makeFrameFilename topdir 0 0 1), .captureReply true,
   .switchAllLEDs 0]

end Muff

namespace Muff

/-! # Theorems -/

/-- Sanity link between the inlined `inComment` flag of `readSignifAux`
and the standalone `skipToEol`, mirroring the source's call structure. -/
theorem readSignifAux_true_eq_skipToEol (chunks : List (List Char)) :
    readSignifAux true chunks =
      match skipToEol chunks with
      | .ok rest => readSignifAux false rest
      | .error e => .error e := by
  induction chunks with
  | nil => rfl
  | cons c rest ih =>
    match c with
    | [] => rfl
    | [ch] =>
      by_cases h : ch = '\r' ∨ ch = '\n' <;>
        simp [readSignifAux, skipToEol, h, ih]
    | ch1 :: ch2 :: t => rfl

/-- String append is associative (via the underlying character lists). -/
theorem strAppend_assoc (a b c : String) : a ++ b ++ c = a ++ (b ++ c) :=
  String.ext (by simp [String.data_append])

/-- The first frame filename of condition 0, view 0. -/
theorem makeFrameFilename_000 (topdir : String) :
    makeFrameFilename topdir 0 0 0 = topdir ++ "/L_00/V_00/raw/frame_00000.jpg" := by
  simp only [makeFrameFilename, makeSubdirName]
  rw [strAppend_assoc]
  rfl

/-- The second frame filename of condition 0, view 0. -/
theorem makeFrameFilename_001 (topdir : String) :
    makeFrameFilename topdir 0 0 1 = topdir ++ "/L_00/V_00/raw/frame_00001.jpg" := by
  simp only [makeFrameFilename, makeSubdirName]
  rw [strAppend_assoc]
  rfl

/-- One step of `readSignifAux` in comment-skipping mode on a single-byte
chunk. -/
theorem readSignifAux_true_cons (c : Char) (rest : List (List Char)) :
    readSignifAux true ([c] :: rest) =
      if c = '\r' ∨ c = '\n' then readSignifAux false rest
      else readSignifAux true rest := rfl

/-- One step of `readSignifAux` in normal mode on a single-byte chunk. -/
theorem readSignifAux_false_cons (c : Char) (rest : List (List Char)) :
    readSignifAux false ([c] :: rest) =
      if c = '#' then readSignifAux true rest
      else if c = ' ' ∨ c = '\r' ∨ c = '\n' then readSignifAux false rest
      else .ok (c, rest) := rfl

/-- In comment-skipping mode, all bytes up to the end of line are
discarded. -/
theorem readSignifAux_comment_skip (l : List Char) (rest : List (List Char))
    (h : ∀ ch ∈ l, ¬(ch = '\r' ∨ ch = '\n')) :
    readSignifAux true (l.map (fun ch => [ch]) ++ rest) = readSignifAux true rest := by
  induction l with
  | nil => rfl
  | cons c t ih =>
    have hc := h c (List.mem_cons_self c t)
    rw [List.map_cons, List.cons_append, readSignifAux_true_cons, if_neg hc]
    exact ih (fun x hx => h x (List.mem_cons_of_mem c hx))

/-- C1: for `nL` in 13..23 and `L` in 12..`nL`-1 the planner is claimed to
light exactly LED `Lx + 12`; in the code this branch assigns to the
undefined name `val`, so at the failing input `L = 12, nL = 13` the
process dies with a `NameError` instead of producing any vector. -/
theorem C1_bottom_tier_raises :
    define_LED_vals 12 13 = .error (.nameError "val") := rfl

/-- C4: `set_Z_step(1.234)` fails the range assertion and
`set_Z_step(0.5)` sends exactly `4+500`, as claimed; but for steps whose
magnitude is below 100 microns the Python format `"%+03d"` pads the
field, sign included, to width 3, so `set_Z_step(0.005)` sends `4+05` —
a 2-digit magnitude — while the claimed 3-digit payload would be
`4+005`. -/
theorem C4_step_payload_two_digit_pad :
    set_Z_step (mkRat 1234 1000) = .error .assertFailed ∧
    set_Z_step (mkRat 1 2) = .ok "4+500" ∧
    set_Z_step (mkRat 1 200) = .ok "4+05" ∧
    specStepPayload (pyRound (ratMul (mkRat 1 200) 1000)) = "4+005" ∧
    ("4+05" : String) ≠ "4+005" ∧
    ((List.range 1999).all fun k =>
      match set_Z_step (mkRat ((k : ℤ) - 999) 1000) with
      | .ok _ => true
      | .error _ => false) = true := by
  refine ⟨by decide, by decide, by decide, by decide, by decide, ?_⟩
  set_option maxRecDepth 100000 in decide

/-- C5: the acknowledgement reader skips spaces, CRs and LFs, discards
`#`-comments through and including the end of line, and resolves the
first other byte — `'0'` is success, anything else is fatal
(`sys.exit(1)`); in particular on the three concrete streams of the
claim. -/
theorem C5_ack_reader :
    waitArduinoOK (strToChunks "# junk\r\n0") = .ok [] ∧
    waitArduinoOK (strToChunks "  \n 0") = .ok [] ∧
    waitArduinoOK (strToChunks "1") = .error (.sysExit 1) ∧
    (∀ s : String,
      waitArduinoOK (strToChunks (" " ++ s)) = waitArduinoOK (strToChunks s) ∧
      waitArduinoOK (strToChunks ("\r" ++ s)) = waitArduinoOK (strToChunks s) ∧
      waitArduinoOK (strToChunks ("\n" ++ s)) = waitArduinoOK (strToChunks s)) ∧
    (∀ cmt s : String, (∀ ch ∈ cmt.data, ¬(ch = '\r' ∨ ch = '\n')) →
      waitArduinoOK (strToChunks ("#" ++ cmt ++ "\n" ++ s)) =
        waitArduinoOK (strToChunks s)) ∧
    (∀ (c : Char) (s : String), ¬(c = ' ' ∨ c = '\r' ∨ c = '\n') → c ≠ '#' →
      waitArduinoOK (strToChunks (String.mk [c] ++ s)) =
        if c = '0' then .ok (strToChunks s) else .error (.sysExit 1)) := by
  refine ⟨rfl, rfl, rfl, fun s => ⟨rfl, rfl, rfl⟩, ?_, ?_⟩
  · intro cmt s h
    have hch : strToChunks ("#" ++ cmt ++ "\n" ++ s) =
        ['#'] :: (cmt.data.map (fun ch => [ch]) ++ (['\n'] :: strToChunks s)) := by
      simp [strToChunks, String.data_append]
    unfold waitArduinoOK readSignif
    rw [hch, readSignifAux_false_cons, if_pos rfl,
      readSignifAux_comment_skip cmt.data _ h, readSignifAux_true_cons,
      if_pos (Or.inr rfl)]
  · intro c s h1 h2
    have hch : strToChunks (String.mk [c] ++ s) = [c] :: strToChunks s := by
      simp [strToChunks, String.data_append]
    unfold waitArduinoOK readSignif
    rw [hch, readSignifAux_false_cons, if_neg h2, if_neg h1]

/-- Witness for C5: the comment law and the resolve law applied at
concrete inputs. -/
theorem C5_ack_reader_witness :
    waitArduinoOK (strToChunks ("#" ++ " junk" ++ "\n" ++ "0")) =
      waitArduinoOK (strToChunks "0") ∧
    waitArduinoOK (strToChunks (String.mk ['1'] ++ "")) =
      (if '1' = '0' then .ok (strToChunks "") else .error (.sysExit 1)) :=
  ⟨C5_ack_reader.2.2.2.2.1 " junk" "0" (by decide),
   C5_ack_reader.2.2.2.2.2 '1' "" (by decide) (by decide)⟩

/-- C6: a `sport.read()` that yields zero bytes or more than one byte is
fatal: `readchar` never returns a byte for it — the diagnostic path
references the undefined name `show_chrs`, so the process dies with a
`NameError` (terminating, as the claim requires, rather than continuing
to operate the device). -/
theorem C6_readchar_fatal_on_bad_read :
    ∀ (c : List Char) (rest : List (List Char)), c.length ≠ 1 →
      readchar (c :: rest) = .error (.nameError "show_chrs") := by
  intro c rest h
  match c with
  | [] => rfl
  | [ch] => exact absurd rfl h
  | ch1 :: ch2 :: t => rfl

/-- Witness for C6: an empty read and a two-byte read are both fatal. -/
theorem C6_readchar_witness :
    readchar [[]] = .error (.nameError "show_chrs") ∧
    readchar [['a', 'b']] = .error (.nameError "show_chrs") :=
  ⟨C6_readchar_fatal_on_bad_read [] [] (by decide),
   C6_readchar_fatal_on_bad_read ['a', 'b'] [] (by decide)⟩

/-- C7: on the branch the code can complete (`nL ≤ 12`, or `nL = 24`, or
`L < 12`) the planner returns a 24-entry vector with entries in
`{0.0, 1.0}` and exactly the branch's LED count lit; but for `nL` in
13..23 with `L ≥ 12` (failing input `L = 13, nL = 14`) it dies with a
`NameError` instead of returning the claimed 1-LED vector. -/
theorem C7_planner_vector_counts :
    define_LED_vals 13 14 = .error (.nameError "val") ∧
    ∀ nL, nL ≤ 24 → ∀ L, L < nL → (nL ≤ 12 ∨ nL = 24 ∨ L < 12) →
      goodVec (define_LED_vals L nL) (branchLEDCount nL) = true := by
  refine ⟨rfl, ?_⟩
  decide

/-- Witness for C7: the count law at `nL = 6` and at `nL = 24`. -/
theorem C7_planner_witness :
    goodVec (define_LED_vals 0 6) (branchLEDCount 6) = true ∧
    goodVec (define_LED_vals 23 24) (branchLEDCount 24) = true :=
  ⟨C7_planner_vector_counts.2 6 (by decide) 0 (by decide) (by decide),
   C7_planner_vector_counts.2 24 (by decide) 23 (by decide) (by decide)⟩

/-- C10: for every `nL` in 1..11 with `nL ≠ 6` and every `L < nL`, the
azimuth slot `S = (L*24 + 12) / nL` is below 23 (so the source's
assertion never fires), the derived centre index lies in 0..11, and the
planner completes without violating the preconditions of the centric and
bridging helpers. -/
theorem C10_azimuth_slot_in_range :
    ∀ nL, nL ≤ 11 → ∀ L, L < nL → nL ≠ 6 →
      (L * 24 + 12) / nL < 23 ∧
      (if (L * 24 + 12) / nL % 2 = 0 then (L * 24 + 12) / nL / 2
       else ((L * 24 + 12) / nL - 1) / 2) < 12 ∧
      plannerOk (define_LED_vals L nL) = true := by decide

/-- C2: in the session `nL = 1, nV = 1, nH = 2, Z_step = 0.1` where every
capture succeeds, the sequencer issues exactly 2 capture requests and
exactly one step-once command, the step-once falls between the first and
the second capture request (so before the second height and not before
the first), the presumed Z offset goes from 0.0 to 0.1, and the two
destination paths are `topdir ++ "/L_00/V_00/raw/frame_00000.jpg"` and
`... frame_00001.jpg` (hence end in `L_00/V_00/raw/frame_0000k.jpg`). -/
theorem C2_sequencer_scenario (topdir : String) :
    ∃ tr st,
      captureImageSet (fun _ => true) topdir 1 1 2 (mkRat 1 10) (some 0)
          sessionInitialLEDs = .ok (tr, some (mkRat 1 10), st, true) ∧
      tr.countP isCaptureRequest = 2 ∧
      tr.countP isMoveMicroscope = 1 ∧
      tr.filter (fun e => isCaptureRequest e || isMoveMicroscope e) =
        [.captureRequest (topdir ++ "/L_00/V_00/raw/frame_00000.jpg"),
         .moveMicroscope,
         .captureRequest (topdir ++ "/L_00/V_00/raw/frame_00001.jpg")] ∧
      tr.filterMap capturePath =
        [topdir ++ "/L_00/V_00/raw/frame_00000.jpg",
         topdir ++ "/L_00/V_00/raw/frame_00001.jpg"] := by
  refine ⟨c2Trace topdir, List.replicate 24 (some 0), rfl, rfl, rfl, ?_, ?_⟩
  · rw [← makeFrameFilename_000 topdir, ← makeFrameFilename_001 topdir]
    rfl
  · rw [← makeFrameFilename_000 topdir, ← makeFrameFilename_001 topdir]
    rfl

/-- C9: feeding `u`, `s`, `ok` to the manual-positioning loop returns
success with the presumed Z offset set to 0.0, and processing the `ok`
line contributes exactly one stop-motor command; `ok`, `abort`, `q` and
`s` are accepted case-insensitively, end-of-input stops the motor and
aborts, blank lines are ignored, and any other line only re-prompts. -/
theorem C9_manual_positioning :
    placeCameraForFirstImage (List.replicate num_LEDs (some 0)) ["u\n", "s\n", "ok\n"] =
      .ok ([.switchLED 0 1, .switchLED 3 1, .switchLED 6 1, .switchLED 9 1,
            .stopMotor, .startMotor 1 false, .stopMotor, .stopMotor],
           sessionInitialLEDs, some 0, true) ∧
    (∀ l rest, l ≠ "" → pyLower (pyStrip l) = "ok" →
      placeCameraLoop (l :: rest) = ([.stopMotor], some 0, true)) ∧
    (∀ l rest, l ≠ "" →
      (pyLower (pyStrip l) = "abort" ∨ pyLower (pyStrip l) = "q") →
      placeCameraLoop (l :: rest) = ([.stopMotor], none, false)) ∧
    placeCameraLoop [] = ([.stopMotor], none, false) ∧
    (∀ rest, placeCameraLoop ("" :: rest) = ([.stopMotor], none, false)) ∧
    (∀ l rest, l ≠ "" → pyStrip l = "" →
      placeCameraLoop (l :: rest) = placeCameraLoop rest) ∧
    (∀ l rest, l ≠ "" → pyLower (pyStrip l) = "s" →
      placeCameraLoop (l :: rest) =
        (.stopMotor :: (placeCameraLoop rest).1, (placeCameraLoop rest).2)) ∧
    (∀ l rest, l ≠ "" →
      pyStrip l ∉ (["u", "d", "U", "D"] : List String) →
      pyLower (pyStrip l) ∉ (["ok", "abort", "q", "s"] : List String) →
      pyStrip l ≠ "" →
      placeCameraLoop (l :: rest) = placeCameraLoop rest) := by
  refine ⟨rfl, ?_, ?_, rfl, fun rest => rfl, ?_, ?_, ?_⟩
  · intro l rest h1 h2
    simp only [placeCameraLoop]
    rw [if_neg h1, h2]
    rfl
  · intro l rest h1 h2
    rcases h2 with h2 | h2 <;>
      · simp only [placeCameraLoop]
        rw [if_neg h1, h2]
        rfl
  · intro l rest h1 h2
    simp only [placeCameraLoop]
    rw [if_neg h1, h2]
    rfl
  · intro l rest h1 h2
    have hu : pyStrip l ≠ "u" := fun hx => by rw [hx] at h2; exact absurd h2 (by decide)
    have hd : pyStrip l ≠ "d" := fun hx => by rw [hx] at h2; exact absurd h2 (by decide)
    have hU : pyStrip l ≠ "U" := fun hx => by rw [hx] at h2; exact absurd h2 (by decide)
    have hD : pyStrip l ≠ "D" := fun hx => by rw [hx] at h2; exact absurd h2 (by decide)
    simp only [placeCameraLoop]
    rw [if_neg h1, h2, if_neg hu, if_neg hd, if_neg hU, if_neg hD]
    rfl
  · intro l rest h1 h2 h3 _
    simp only [List.mem_cons, List.mem_singleton, not_or] at h2 h3
    obtain ⟨hu, hd, hU, hD, -⟩ := h2
    obtain ⟨hok, hab, hq, hs, -⟩ := h3
    simp only [placeCameraLoop]
    rw [if_neg h1, if_neg hok, if_neg (not_or.mpr ⟨hab, hq⟩), if_neg hu,
      if_neg hd, if_neg hU, if_neg hD, if_neg hs]

/-- Witness for C9: the loop laws applied at concrete inputs, including
the upper-case forms of `ok`, `abort`, `q` and `s`. -/
theorem C9_manual_positioning_witness :
    placeCameraLoop ["OK"] = ([.stopMotor], some 0, true) ∧
    placeCameraLoop ["Abort\n"] = ([.stopMotor], none, false) ∧
    placeCameraLoop ["Q\n"] = ([.stopMotor], none, false) ∧
    placeCameraLoop [" \n", "q\n"] = placeCameraLoop ["q\n"] ∧
    placeCameraLoop ["S\n", "q\n"] =
      (.stopMotor :: (placeCameraLoop ["q\n"]).1, (placeCameraLoop ["q\n"]).2) ∧
    placeCameraLoop ["xyz\n", "q\n"] = placeCameraLoop ["q\n"] :=
  ⟨C9_manual_positioning.2.1 "OK" [] (by decide) (by decide),
   C9_manual_positioning.2.2.1 "Abort\n" [] (by decide) (Or.inl (by decide)),
   C9_manual_positioning.2.2.1 "Q\n" [] (by decide) (Or.inr (by decide)),
   C9_manual_positioning.2.2.2.2.2.1 " \n" ["q\n"] (by decide) (by decide),
   C9_manual_positioning.2.2.2.2.2.2.1 "S\n" ["q\n"] (by decide) (by decide),
   C9_manual_positioning.2.2.2.2.2.2.2 "xyz\n" ["q\n"] (by decide) (by decide)
     (by decide) (by decide)⟩

/-- The executable `ratAdd` is rational addition. -/
theorem ratAdd_eq_add (a b : ℚ) : ratAdd a b = a + b := by
  have ha : ((a.den : ℚ)) ≠ 0 := Nat.cast_ne_zero.mpr a.den_nz
  have hb : ((b.den : ℚ)) ≠ 0 := Nat.cast_ne_zero.mpr b.den_nz
  rw [ratAdd, Rat.mkRat_eq_div]
  conv_rhs => rw [← Rat.num_div_den a, ← Rat.num_div_den b, div_add_div _ _ ha hb]
  push_cast
  ring_nf

/-- The executable `ratMul` is rational multiplication. -/
theorem ratMul_eq_mul (a b : ℚ) : ratMul a b = a * b := by
  rw [ratMul, Rat.mkRat_eq_div]
  conv_rhs => rw [← Rat.num_div_den a, ← Rat.num_div_den b, div_mul_div_comm]
  push_cast
  ring_nf

/-- The executable `Rat.floor` is the floor function. -/
theorem ratFloor_eq_floor (q : ℚ) : Rat.floor q = ⌊q⌋ := by
  rw [Rat.floor_def', Rat.floor_def]

/-- C3 counterexample: in the session `nL = 1, nV = 1, nH = 3` whose 2nd
of 3 planned captures gets a bad acknowledgement, the sequence stops
after 2 issued capture requests of which exactly 1 succeeded — the
claimed "2 successful captures" is false. -/
theorem C3_two_successful_captures_false :
    (mainRun (fun k => !(k == 1)) "muff_scans/t" 1 1 3 (mkRat 1 10)
        ["u\n", "s\n", "ok\n"]).map
      (fun p => (p.1.countP isCaptureRequest, p.1.countP isGoodReply)) =
      .ok (2, 1) ∧
    ¬((mainRun (fun k => !(k == 1)) "muff_scans/t" 1 1 3 (mkRat 1 10)
        ["u\n", "s\n", "ok\n"]).map
      (fun p => (p.1.countP isCaptureRequest, p.1.countP isGoodReply)) =
      .ok (2, 2)) :=
  ⟨by decide, by decide⟩

/-- C3 amended: on every terminal path on which the process exits
(normal completion, capture failure, operator abort — as opposed to dying
on an uncaught exception) the trace ends with stop-motor, all-lights-off
and the exit, whose status is 0 or 1; in the failure scenario the
sequence stops after 2 issued capture requests (1 successful) with
exactly one cleanup-and-exit, status 1; a completed session exits 0 and
an operator abort exits 1. -/
theorem C3_mandatory_cleanup :
    (∀ (caps : Nat → Bool) (topdir : String) (nL nV nH : Nat) (zStep : ℚ)
        (input : List String),
      endsWithCleanup (mainRun caps topdir nL nV nH zStep input)) ∧
    (mainRun (fun k => !(k == 1)) "muff_scans/t" 1 1 3 (mkRat 1 10)
        ["u\n", "s\n", "ok\n"]).map
      (fun p => (p.2, p.1.countP isCaptureRequest, p.1.countP isGoodReply,
        p.1.countP isExitEvent)) = .ok (1, 2, 1, 1) ∧
    (mainRun (fun _ => true) "muff_scans/t" 1 1 1 (mkRat 1 10) ["ok\n"]).map
      (fun p => p.2) = .ok 0 ∧
    (mainRun (fun _ => true) "muff_scans/t" 1 1 1 (mkRat 1 10) ["q\n"]).map
      (fun p => p.2) = .ok 1 := by
  refine ⟨?_, by decide, by decide, by decide⟩
  intro caps topdir nL nV nH zStep input
  simp only [mainRun]
  cases h1 : testLightingConditions nL with
  | error e => exact trivial
  | ok p =>
    obtain ⟨ev1, st1⟩ := p
    try dsimp only
    cases h2 : set_Z_step zStep with
    | error e => exact trivial
    | ok pay =>
      try dsimp only
      cases h3 : placeCameraForFirstImage st1 input with
      | error e => exact trivial
      | ok q =>
        obtain ⟨ev2, st2, zOpt, ok1⟩ := q
        try dsimp only
        cases ok1 with
        | false =>
          refine ⟨⟨ev1 ++ .sendSetZ pay :: ev2, ?_⟩, Or.inr rfl⟩
          simp [terminateProcess, List.append_assoc]
        | true =>
          try dsimp only
          cases h4 : captureImageSet caps topdir nL nV nH zStep zOpt st2 with
          | error e => exact trivial
          | ok r =>
            obtain ⟨ev3, z3, st3, ok2⟩ := r
            try dsimp only
            cases ok2 with
            | false =>
              refine ⟨⟨ev1 ++ .sendSetZ pay :: ev2 ++ ev3, ?_⟩, Or.inr rfl⟩
              simp [terminateProcess, List.append_assoc]
            | true =>
              refine ⟨⟨ev1 ++ .sendSetZ pay :: ev2 ++ ev3, ?_⟩, Or.inl rfl⟩
              simp [terminateProcess, List.append_assoc]

/-- Characterization of the `set_light_condition` loop from index `lix`
with `n` iterations left, on a cache large enough: it succeeds, emits
exactly one `switch_LED` command per scanned index whose desired
intensity differs from the cache, sets those cache entries to the desired
intensities, and leaves every other index unchanged. -/
theorem slcAux_spec (vals : List ℚ) :
    ∀ (n lix : Nat) (st : List (Option ℚ)),
      (∀ j, vals.getD j 0 = 0 ∨ vals.getD j 0 = 1) →
      lix + n ≤ st.length →
      ∃ evs st1,
        slcAux vals lix n st = .ok (evs, st1) ∧
        evs = (List.range n).filterMap (fun j =>
          if some (vals.getD (lix + j) 0) ≠ st.getD (lix + j) none then
            some (Event.switchLED (lix + j) (vals.getD (lix + j) 0))
          else none) ∧
        st1.length = st.length ∧
        (∀ j, j < n → st1.getD (lix + j) none = some (vals.getD (lix + j) 0)) ∧
        (∀ i, i < lix ∨ lix + n ≤ i → st1.getD i none = st.getD i none) := by
  intro n
  induction n with
  | zero =>
    intro lix st hv _
    exact ⟨[], st, rfl, rfl, rfl,
      fun j hj => absurd hj (Nat.not_lt_zero j), fun i _ => rfl⟩
  | succ n ih =>
    intro lix st hv hlen
    have hlix : lix < st.length := by omega
    simp only [slcAux]
    rw [if_pos (hv lix)]
    by_cases hd : some (vals.getD lix 0) ≠ st.getD lix none
    · rw [if_pos hd]
      have hlen' : lix + 1 + n ≤ (st.set lix (some (vals.getD lix 0))).length := by
        rw [List.length_set]; omega
      obtain ⟨evs, st1, hrun, hevs, hlen1, hin, hout⟩ := ih (lix + 1) _ hv hlen'
      rw [hrun]
      refine ⟨_, st1, rfl, ?_, ?_, ?_, ?_⟩
      · rw [List.range_succ_eq_map,
          @List.filterMap_cons_some _ _
            (fun j => if some (vals.getD (lix + j) 0) ≠ st.getD (lix + j) none
              then some (Event.switchLED (lix + j) (vals.getD (lix + j) 0))
              else none)
            0 (List.map Nat.succ (List.range n))
            (Event.switchLED lix (vals.getD lix 0))
            (by simp only [Nat.add_zero]; rw [if_pos hd]),
          List.filterMap_map, hevs]
        congr 1
        apply List.filterMap_congr
        intro j hj
        have e1 : lix + 1 + j = lix + Nat.succ j := by omega
        have hne : lix ≠ lix + Nat.succ j := by omega
        simp only [Function.comp, e1, List.getD_eq_getElem?_getD,
          List.getElem?_set_ne hne]
      · rwa [List.length_set] at hlen1
      · intro j hj
        cases j with
        | zero =>
          have h1 := hout lix (Or.inl (Nat.lt_succ_self lix))
          rw [Nat.add_zero, h1, List.getD_eq_getElem?_getD,
            List.getElem?_set_self hlix]
          rfl
        | succ j' =>
          have h2 := hin j' (by omega)
          rwa [show lix + 1 + j' = lix + (j' + 1) by omega] at h2
      · intro i hi
        have hi' : i < lix + 1 ∨ lix + 1 + n ≤ i := by omega
        have hne : lix ≠ i := by omega
        rw [hout i hi', List.getD_eq_getElem?_getD, List.getElem?_set_ne hne,
          ← List.getD_eq_getElem?_getD]
    · rw [if_neg hd]
      obtain ⟨evs, st1, hrun, hevs, hlen1, hin, hout⟩ := ih (lix + 1) st hv (by omega)
      rw [hrun]
      refine ⟨evs, st1, rfl, ?_, hlen1, ?_, ?_⟩
      · rw [List.range_succ_eq_map,
          @List.filterMap_cons_none _ _
            (fun j => if some (vals.getD (lix + j) 0) ≠ st.getD (lix + j) none
              then some (Event.switchLED (lix + j) (vals.getD (lix + j) 0))
              else none)
            0 (List.map Nat.succ (List.range n))
            (by simp only [Nat.add_zero]; rw [if_neg hd]),
          List.filterMap_map, hevs]
        apply List.filterMap_congr
        intro j hj
        simp only [Function.comp, show ∀ j, lix + 1 + j = lix + Nat.succ j from
          fun j => by omega]
      · intro j hj
        cases j with
        | zero =>
          have h1 := hout lix (Or.inl (Nat.lt_succ_self lix))
          rw [Nat.add_zero, h1]
          push_neg at hd
          exact hd.symm
        | succ j' =>
          have h2 := hin j' (by omega)
          rwa [show lix + 1 + j' = lix + (j' + 1) by omega] at h2
      · intro i hi
        exact hout i (by omega)

/-- If every scanned cache entry already holds the desired intensity, the
`set_light_condition` loop emits nothing and leaves the cache alone. -/
theorem slcAux_noop (vals : List ℚ) :
    ∀ (n lix : Nat) (st : List (Option ℚ)),
      (∀ j, vals.getD j 0 = 0 ∨ vals.getD j 0 = 1) →
      (∀ j, j < n → st.getD (lix + j) none = some (vals.getD (lix + j) 0)) →
      slcAux vals lix n st = .ok ([], st) := by
  intro n
  induction n with
  | zero => intro lix st _ _; rfl
  | succ n ih =>
    intro lix st hv hst
    have h0 : st.getD lix none = some (vals.getD lix 0) := by
      have := hst 0 (Nat.succ_pos n)
      rwa [Nat.add_zero] at this
    simp only [slcAux]
    rw [if_pos (hv lix), if_neg (fun hne => hne h0.symm)]
    exact ih (lix + 1) st hv (fun j hj => by
      have := hst (j + 1) (by omega)
      rwa [show lix + (j + 1) = lix + 1 + j by omega] at this)

/-- C8: applying a 24-entry 0.0/1.0 illumination vector to any 24-entry
cached LED state succeeds, emitting exactly one `switch_LED` command per
index whose desired intensity differs from the cache; applying the same
vector again to the updated cache emits zero commands and leaves the
cache unchanged. -/
theorem C8_delta_commands_idempotent :
    ∀ (v : List ℚ) (st : List (Option ℚ)),
      v.length = 24 → (∀ x ∈ v, x = 0 ∨ x = 1) → st.length = 24 →
      ∃ evs st1,
        setLightCondition st v = .ok (evs, st1) ∧
        evs = (List.range 24).filterMap (fun i =>
          if some (v.getD i 0) ≠ st.getD i none then
            some (Event.switchLED i (v.getD i 0)) else none) ∧
        setLightCondition st1 v = .ok ([], st1) := by
  intro v st hlen hv hst
  have hv' : ∀ j, v.getD j 0 = 0 ∨ v.getD j 0 = 1 := by
    intro j
    by_cases hj : j < v.length
    · rw [List.getD_eq_getElem v 0 hj]
      exact hv _ (List.getElem_mem hj)
    · rw [List.getD_eq_default v 0 (by omega)]
      exact Or.inl rfl
  have hsl : ∀ st' : List (Option ℚ),
      setLightCondition st' v = slcAux v 0 num_LEDs st' := by
    intro st'
    simp [setLightCondition, hlen, num_LEDs]
  obtain ⟨evs, st1, hrun, hevs, hlen1, hin, hout⟩ :=
    slcAux_spec v 24 0 st hv' (by omega)
  refine ⟨evs, st1, by rw [hsl, num_LEDs]; exact hrun, ?_, ?_⟩
  · rw [hevs]
    apply List.filterMap_congr
    intro j _
    simp only [Nat.zero_add]
  · rw [hsl, num_LEDs,
      slcAux_noop v 24 0 st1 hv' (fun j hj => by simpa using hin j hj)]

/-- Witness for C8: the all-off vector applied to the fresh (`None`-
initialized) cache, twice. -/
theorem C8_delta_commands_witness :
    ∃ evs st1,
      setLightCondition (List.replicate 24 (none : Option ℚ))
          (List.replicate 24 (0 : ℚ)) = .ok (evs, st1) ∧
      evs = (List.range 24).filterMap (fun i =>
        if some ((List.replicate 24 (0 : ℚ)).getD i 0) ≠
            (List.replicate 24 (none : Option ℚ)).getD i none then
          some (Event.switchLED i ((List.replicate 24 (0 : ℚ)).getD i 0))
        else none) ∧
      setLightCondition st1 (List.replicate 24 (0 : ℚ)) = .ok ([], st1) :=
  C8_delta_commands_idempotent (List.replicate 24 0) (List.replicate 24 none)
    (by decide) (by decide) (by decide)

/-- Witness for C10: the slot bounds at `nL = 5, L = 3`. -/
theorem C10_azimuth_witness :
    (3 * 24 + 12) / 5 < 23 ∧
    (if (3 * 24 + 12) / 5 % 2 = 0 then (3 * 24 + 12) / 5 / 2
     else ((3 * 24 + 12) / 5 - 1) / 2) < 12 ∧
    plannerOk (define_LED_vals 3 5) = true :=
  C10_azimuth_slot_in_range 5 (by decide) 3 (by decide) (by decide)

end Muff
